import Mathlib

/-!
Formal model of `drain-service/drain_training_inferencing.py`.

The file shallowly embeds the parts of the service the verified properties
talk about:

* the Scoring Stage loop body of `train_and_inference` (lines 62-122):
  per-record classification of a popped batch, the anomaly heuristic on the
  resulting frame, and the published prediction payload;
* the keyword pattern construction of `__main__` (lines 332-341) together
  with the `"a^"` substitution of line 102-103, over a small regular
  expression fragment with Python `re.search` semantics;
* the Persistence Stage loop body of `update_es_logs` (lines 147-242):
  partition into the anomalous subset, the two bulk calls, and the
  exception handlers.  The source calls `queue.put(...)` in the transient
  handlers *without awaiting the coroutine* (lines 204 and 237), so those
  calls never enqueue anything; the model records them separately from
  actually-performed puts;
* the Retrain Signal Controller loop body of `training_signal_check`
  (lines 245-324) as a pure tick function on an explicit state record.

Machine reals: the service computes `weighted_vol = sqrt(wvar) / m` with
numpy and compares it against the constants 0.199, 0.155 and 0.15.  Every
reachable sample window has a positive mean (the first sample accepted by
the guard of line 264 is positive and the drain cluster count never
decreases), and for `m > 0`, `c ≥ 0` the comparison `sqrt(wvar) / m ≥ c`
is equivalent to `wvar ≥ c^2 * m^2` (theorem `sqrt_vol_threshold_iff`
below).  The tick therefore performs the squared comparison over `ℚ`,
which is exact and computable.
-/

namespace DrainService

/-! ## Regular-expression fragment

`FAIL_KEYWORDS` is compiled (lines 332-341) into the alternation
`"(k1)|(k2)|..."`; when no keyword survives, line 102-103 substitutes the
never-matching pattern `"a^"`.  The fragment below covers exactly these
shapes: literal characters, the start anchor, concatenation, alternation
and the empty word (for building literal sequences). -/

inductive Rx where
  | eps
  | lit (c : Char)
  | caret
  | seq (a b : Rx)
  | alt (a b : Rx)
  deriving DecidableEq, Repr

/-- All ways `r` can match a prefix of `s`, where `s` is the suffix of the
searched text starting at absolute position `i`; each result is the
absolute end position together with the unconsumed suffix. -/
def matchEnds : Rx → Nat → List Char → List (Nat × List Char)
  | .eps, i, s => [(i, s)]
  | .lit c, i, x :: xs => if x = c then [(i + 1, xs)] else []
  | .lit _, _, [] => []
  | .caret, i, s => if i = 0 then [(i, s)] else []
  | .seq a b, i, s => (matchEnds a i s).flatMap (fun p => matchEnds b p.1 p.2)
  | .alt a b, i, s => matchEnds a i s ++ matchEnds b i s

/-- Python `re.search` semantics (used by `Series.str.contains` with
`regex=True`, line 107): the pattern matches somewhere in the string,
trying every start position. -/
def rxSearch (r : Rx) (s : String) : Bool :=
  (List.range (s.data.length + 1)).any
    (fun i => !(matchEnds r i (s.data.drop i)).isEmpty)

/-- A keyword as the concatenation of its characters taken literally (the
capturing parentheses the source wraps around each keyword do not affect
whether the pattern matches). -/
def litSeq (cs : List Char) : Rx :=
  (cs.map Rx.lit).foldr Rx.seq Rx.eps

/-- Alternation of a list of patterns, as built by the `"|"`-joins of
lines 337-340. -/
def altOf : List Rx → Rx
  | [] => Rx.eps
  | [r] => r
  | r :: rs => Rx.alt r (altOf rs)

/-- The compiled fail-keyword pattern.  `__main__` (lines 332-341) skips
empty keywords and joins the rest with `"|"`; `train_and_inference`
(lines 102-103) replaces an empty pattern string with `"a^"`, a pattern
that matches nothing (an `'a'` followed by start-of-string). -/
def failRegex (keywords : List String) : Rx :=
  let ks := keywords.filter (fun k => k ≠ "")
  if ks = [] then Rx.seq (.lit 'a') .caret
  else altOf (ks.map (fun k => litSeq k.data))

/-! ## Data model of the Scoring Stage -/

/-- One normalized log line popped from the ingestion queue
(`{_id, masked_log}` rows of the inbound table). -/
structure LogRecord where
  _id : String
  masked_log : String
  deriving DecidableEq, Repr

/-- The dict returned by `template_miner.add_log_message` for one message. -/
structure MiningResult where
  change_type : String
  cluster_id : Nat
  template_mined : String
  cluster_size : Nat
  deriving DecidableEq, Repr

/-- The clustering capability.  `add_log_message` mutates the miner, so it
is modelled as explicit state passing on an abstract state type `σ`. -/
structure Miner (σ : Type) where
  add_log_message : σ → String → MiningResult × σ

/-- One row of the `inferencing_results` frame built at lines 71-80.
Line 74-76 compares the result dict against the string
`"cluster_created"`, which is always false, so `template_or_change_type`
is always `str(result["cluster_id"])`. -/
structure InferencingResult where
  _id : String
  update_type : String
  template_or_change_type : String
  matched_template : String
  drain_matched_template_id : Nat
  drain_matched_template_support : Nat
  deriving DecidableEq, Repr

def mkInferencingResult (r : LogRecord) (result : MiningResult) : InferencingResult :=
  { _id := r._id
    update_type := result.change_type
    template_or_change_type := toString result.cluster_id
    matched_template := result.template_mined
    drain_matched_template_id := result.cluster_id
    drain_matched_template_support := result.cluster_size }

/-- The loop of lines 67-81: every row whose `masked_log` is truthy
(non-empty) is classified and contributes one row; empty rows are skipped
and do not touch the miner. -/
def inferencingResults (m : Miner σ) : σ → List LogRecord → List InferencingResult × σ
  | s, [] => ([], s)
  | s, r :: rest =>
    if r.masked_log ≠ "" then
      let rs := m.add_log_message s r.masked_log
      let tail := inferencingResults m rs.2 rest
      (mkInferencingResult r rs.1 :: tail.1, tail.2)
    else
      inferencingResults m s rest

/-- Classification of a list of records with no emptiness guard: the
specification-side description of what lines 67-81 do to the non-empty
rows, to be compared with `inferencingResults`. -/
def classifyAll (m : Miner σ) : σ → List LogRecord → List InferencingResult × σ
  | s, [] => ([], s)
  | s, r :: rest =>
    let rs := m.add_log_message s r.masked_log
    let tail := classifyAll m rs.2 rest
    (mkInferencingResult r rs.1 :: tail.1, tail.2)

/-- The anomaly heuristic of lines 101-109 for one row: pandas `&` binds
tighter than `|`, so the mask is
`(support <= 10 and support != 10) or contains(pattern)`. -/
def drainPrediction (rx : Rx) (support : Nat) (template : String) : Nat :=
  if (support ≤ 10 ∧ support ≠ 10) ∨ rxSearch rx template = true then 1 else 0

/-- One row of the published prediction payload: the projection of
lines 110-118 plus the `drain_prediction` column. -/
structure ScoredRecord where
  _id : String
  drain_prediction : Nat
  drain_matched_template_id : Nat
  drain_matched_template_support : Nat
  deriving DecidableEq, Repr

def scoreRecord (rx : Rx) (ir : InferencingResult) : ScoredRecord :=
  { _id := ir._id
    drain_prediction := drainPrediction rx ir.drain_matched_template_support ir.matched_template
    drain_matched_template_id := ir.drain_matched_template_id
    drain_matched_template_support := ir.drain_matched_template_support }

/-- The scored batch produced from one popped batch. -/
def scoredOf (rx : Rx) (m : Miner σ) (s : σ) (batch : List LogRecord) : List ScoredRecord :=
  ((inferencingResults m s batch).1).map (scoreRecord rx)

/-- Externally visible actions one Scoring Stage iteration can perform on
the transport and on the persistence queue.  The loop body of
lines 64-122 publishes on NATS; it contains no `put` onto
`logs_to_update_in_elasticsearch`, so a `persistPut` effect is never
emitted by `trainStep` (the scored data reaches that queue only through
the `"anomalies"` subscription of `consume_logs`, lines 44-47 and 55-59). -/
inductive ScoringEffect where
  | publish (subject : String) (payload : List ScoredRecord)
  | persistPut (payload : List ScoredRecord)
  deriving DecidableEq, Repr

/-- One iteration of the `train_and_inference` loop body (lines 64-122) on
a popped batch.  When no row survives the emptiness guard,
`pd.DataFrame([])` has no columns and `df["update_type"]` (line 85)
raises `KeyError`, modelled as the error case; nothing is published then.
The `value_counts` bookkeeping of lines 85-98 only feeds observability
queues and is not modelled further. -/
def trainStep (m : Miner σ) (rx : Rx) (s : σ) (batch : List LogRecord) :
    Except String (List ScoringEffect × σ) :=
  if (inferencingResults m s batch).1 = [] then Except.error "KeyError: update_type"
  else
    Except.ok ([ScoringEffect.publish "anomalies" (scoredOf rx m s batch)],
      (inferencingResults m s batch).2)

/-- The messages a scoring iteration actually published. -/
def publishedOf : Except String (List ScoringEffect × σ) → List (String × List ScoredRecord)
  | Except.error _ => []
  | Except.ok (effs, _) =>
    effs.filterMap (fun e => match e with
      | ScoringEffect.publish subj p => some (subj, p)
      | ScoringEffect.persistPut _ => none)

/-- The batches a scoring iteration put directly onto the persistence
queue. -/
def persistPutsOf (effs : List ScoringEffect) : List (List ScoredRecord) :=
  effs.filterMap (fun e => match e with
    | ScoringEffect.publish _ _ => none
    | ScoringEffect.persistPut p => some p)

/-- The `anomalies` subscription handler of `consume_logs` (lines 44-47):
it awaits `logs_to_update_es.put(...)`, appending the decoded payload to
the queue (serialization through NATS is treated as the identity). -/
def anomaliesSubscription (q : List (List ScoredRecord)) (payload : List ScoredRecord) :
    List (List ScoredRecord) :=
  q ++ [payload]

/-- Delivery of the published messages of one iteration to the in-process
subscriptions: every message on subject `"anomalies"` is handed to
`anomaliesSubscription`; a direct `persistPut` (which `trainStep` never
emits) would append to the queue as well. -/
def deliverEffects (q : List (List ScoredRecord)) : List ScoringEffect → List (List ScoredRecord)
  | [] => q
  | ScoringEffect.publish subj p :: rest =>
    deliverEffects (if subj = "anomalies" then anomaliesSubscription q p else q) rest
  | ScoringEffect.persistPut p :: rest => deliverEffects (q ++ [p]) rest

/-- A fixed miner for concrete evaluations: every message lands in
cluster 0, template `""`, support 1, change type `"none"`. -/
def unitMiner : Miner Unit :=
  ⟨fun s _ => (⟨"none", 0, "", 1⟩, s)⟩

/-! ## Persistence Stage (`update_es_logs`, lines 147-242) -/

/-- Outcome of one `async_streaming_bulk` call, as discriminated by the
`except` clauses of lines 199-209 and 234-242.  `transportError true`
stands for a `TransportError` whose `status_code` is `"N/A"`. -/
inductive BulkOutcome where
  | ok
  | bulkIndexError
  | connectionTimeout
  | asyncTimeout
  | transportError (statusNA : Bool)
  deriving DecidableEq, Repr

/-- Observable effects of one Persistence Stage iteration.
`requeued` lists the batches actually put back onto the queue — the put
coroutine would have to be awaited for that, which the source never does;
`unawaitedPuts` lists the batches for which lines 204/237 created a
`queue.put(...)` coroutine that is never awaited (and therefore never
runs); `reconnected` records whether `setup_es_connection` was called
again; `raised` records an exception escaping the loop body. -/
structure PersistEffects where
  requeued : List (List ScoredRecord)
  unawaitedPuts : List (List ScoredRecord)
  reconnected : Bool
  raised : Bool
  deriving DecidableEq, Repr

def noEffects : PersistEffects := ⟨[], [], false, false⟩

def combineEffects (a b : PersistEffects) : PersistEffects :=
  ⟨a.requeued ++ b.requeued, a.unawaitedPuts ++ b.unawaitedPuts,
   a.reconnected || b.reconnected, a.raised || b.raised⟩

/-- Handlers around the scripted anomaly bulk call (lines 185-209).
`BulkIndexError`, `ConnectionTimeout` and asyncio `TimeoutError` are all
caught at line 199; the handler logs and evaluates `queue.put(anomaly_df)`
(line 204) without `await`, so the batch is never re-enqueued.
A `TransportError` with status `"N/A"` triggers a reconnect (line 209). -/
def anomalyBulkExcept (anomaly_df : List ScoredRecord) : BulkOutcome → PersistEffects
  | .ok => noEffects
  | .bulkIndexError => ⟨[], [anomaly_df], false, false⟩
  | .connectionTimeout => ⟨[], [anomaly_df], false, false⟩
  | .asyncTimeout => ⟨[], [anomaly_df], false, false⟩
  | .transportError na => ⟨[], [], na, false⟩

/-- Handlers around the plain field-update bulk call (lines 211-242).
Only `BulkIndexError` and `ConnectionTimeout` are caught at line 234 (the
asyncio `TimeoutError` is not listed there and escapes); the handler again
evaluates `queue.put(df)` (line 237) without `await`. -/
def fullBulkExcept (df : List ScoredRecord) : BulkOutcome → PersistEffects
  | .ok => noEffects
  | .bulkIndexError => ⟨[], [df], false, false⟩
  | .connectionTimeout => ⟨[], [df], false, false⟩
  | .asyncTimeout => ⟨[], [], false, true⟩
  | .transportError na => ⟨[], [], na, false⟩

/-- One iteration of the `update_es_logs` loop body (lines 169-242) on a
popped batch, given the outcome of each bulk call: partition off the
anomalous subset (line 175), run the scripted bulk for it unless it is
empty (lines 176-209), then run the field-update bulk for the full batch
(lines 211-242). -/
def updateEsStep (df : List ScoredRecord) (o1 o2 : BulkOutcome) : PersistEffects :=
  combineEffects
    (if df.filter (fun r => r.drain_prediction = 1) = [] then noEffects
     else anomalyBulkExcept (df.filter (fun r => r.drain_prediction = 1)) o1)
    (fullBulkExcept df o2)

/-! ## Retrain Signal Controller (`training_signal_check`, lines 245-324) -/

/-- One interval appended to `normal_periods`. -/
structure StablePeriod where
  start_ts : Int
  end_ts : Int
  deriving DecidableEq, Repr

/-- The loop-local state of `training_signal_check` (lines 252-259)
together with the `num_total_clusters_tracking_queue` window (newest
sample first, capacity 50). -/
structure ControllerState where
  iteration : Nat
  num_templates_in_last_train : Nat
  train_on_next_chance : Bool
  stable : Bool
  training_start_ts_ns : Int
  very_first_ts_ns : Int
  normal_periods : List StablePeriod
  window : List Nat
  deriving DecidableEq, Repr

/-- The state at lines 252-259: both timestamps start at the same
startup instant `t0`. -/
def initController (t0 : Int) : ControllerState :=
  { iteration := 0
    num_templates_in_last_train := 0
    train_on_next_chance := true
    stable := false
    training_start_ts_ns := t0
    very_first_ts_ns := t0
    normal_periods := []
    window := [] }

/-- `appendleft` on a deque of maxlen 50 (line 268 with line 32). -/
def pushWindow (c : Nat) (w : List Nat) : List Nat :=
  (c :: w).take 50

def ratValues (w : List Nat) : List ℚ :=
  w.map (fun n => (n : ℚ))

/-- `np.mean(num_clusters[:10])` (lines 275 and 279): the mean of the ten
most recent samples. -/
def mean10 (w : List Nat) : ℚ :=
  ((ratValues w).take 10).sum / (((ratValues w).take 10).length : ℚ)

/-- `np.flip(np.true_divide(np.arange(1, n + 1), n))` (line 277): linear
weights `[n/n, (n-1)/n, ..., 1/n]`, so the newest sample carries the
largest weight. -/
def mkWeights (n : Nat) : List ℚ :=
  (List.range n).map (fun i => ((n - i : Nat) : ℚ) / (n : ℚ))

def dot (xs ys : List ℚ) : ℚ :=
  (xs.zip ys).foldr (fun p acc => p.1 * p.2 + acc) 0

/-- `np.average(values, weights=weights)`. -/
def weightedAverage (vals ws : List ℚ) : ℚ :=
  dot vals ws / ws.sum

/-- The weighted variance of `weighted_avg_and_std` (lines 246-250). -/
def weightedVar (vals ws : List ℚ) : ℚ :=
  weightedAverage (vals.map (fun v => (v - weightedAverage vals ws) ^ 2)) ws

/-- `weighted_vol ≥ c` for the window `w`, performed as the exact squared
comparison `wvar ≥ c^2 * m^2` (see the header note and
`sqrt_vol_threshold_iff`). -/
def wvolGE (w : List Nat) (c : ℚ) : Bool :=
  decide (weightedVar (ratValues w) (mkWeights w.length) ≥ c ^ 2 * (mean10 w) ^ 2)

/-- `weighted_vol < c`, the complement of `wvolGE`. -/
def wvolLT (w : List Nat) (c : ℚ) : Bool :=
  ! wvolGE w c

/-- `weighted_vol > c` as the exact squared comparison. -/
def wvolGT (w : List Nat) (c : ℚ) : Bool :=
  decide (weightedVar (ratValues w) (mkWeights w.length) > c ^ 2 * (mean10 w) ^ 2)

/-- `weighted_vol ≤ c`, the complement of `wvolGT`. -/
def wvolLE (w : List Nat) (c : ℚ) : Bool :=
  ! wvolGT w c

/-- Lines 287-288: high weighted volatility arms
`train_on_next_chance`. -/
def ruleA (w : List Nat) (st : ControllerState) : ControllerState :=
  if wvolGE w (199/1000) then { st with train_on_next_chance := true } else st

/-- Lines 290-295: refresh `training_start_ts_ns` when volatility is
below 0.199, the start timestamp has moved past the startup value, and a
retrain is awaited.  Nothing here checks whether a period is already
open; an open start timestamp is simply overwritten. -/
def ruleB (w : List Nat) (now : Int) (st : ControllerState) : ControllerState :=
  if wvolLT w (199/1000) = true ∧ st.training_start_ts_ns ≠ st.very_first_ts_ns ∧
      st.train_on_next_chance = true then
    { st with training_start_ts_ns := now }
  else st

/-- Lines 297-303: close the open period into `normal_periods` when
volatility rises above 0.155 while stable and not awaiting a retrain. -/
def ruleC (w : List Nat) (now : Int) (st : ControllerState) : ControllerState :=
  if wvolGT w (155/1000) = true ∧ st.train_on_next_chance = false ∧ st.stable = true then
    { st with
        normal_periods := st.normal_periods ++ [⟨st.training_start_ts_ns, now⟩]
        stable := false
        training_start_ts_ns := -1 }
  else st

/-- Lines 311-315: the history as published by a trigger — the open
period (if any) closed at `now` and appended. -/
def closedPeriods (now : Int) (st : ControllerState) : List StablePeriod :=
  if st.training_start_ts_ns ≠ -1 then
    st.normal_periods ++ [⟨st.training_start_ts_ns, now⟩]
  else st.normal_periods

/-- Lines 305-324: the retrain trigger.  It requires `weighted_vol ≤ 0.15`
and fires when either a retrain is awaited or the live count exceeds
twice the count at the last retrain; it closes any open period, publishes
the accumulated `normal_periods` (which are *not* cleared afterwards) and
re-opens a period at `now`. -/
def ruleD (w : List Nat) (now : Int) (count : Nat) (st : ControllerState) :
    ControllerState × Option (List StablePeriod) :=
  if wvolLE w (15/100) = true ∧
      (st.train_on_next_chance = true ∨ count > 2 * st.num_templates_in_last_train) then
    ({ st with
        num_templates_in_last_train := count
        normal_periods := closedPeriods now st
        train_on_next_chance := false
        stable := true
        training_start_ts_ns := now }, some (closedPeriods now st))
  else (st, none)

/-- One iteration of the `training_signal_check` loop body
(lines 262-324): read the live count, skip when nothing was ever
measured, push the sample, and apply rules a-d in source order once at
least 4 samples exist.  The unweighted `vol` of line 275 only feeds a log
line and does not influence control flow.  The emitted payload is
`{model_to_train: "nulog", time_intervals: normal_periods}`, returned
here as the interval list. -/
def signalTick (st : ControllerState) (now : Int) (count : Nat) :
    ControllerState × Option (List StablePeriod) :=
  if st.window = [] ∧ count = 0 then (st, none)
  else if (pushWindow count st.window).length > 3 then
    ruleD (pushWindow count st.window) now count
      (ruleC (pushWindow count st.window) now
        (ruleB (pushWindow count st.window) now
          (ruleA (pushWindow count st.window)
            { st with iteration := st.iteration + 1, window := pushWindow count st.window })))
  else ({ st with iteration := st.iteration + 1, window := pushWindow count st.window }, none)

/-- Run the controller over a list of `(now, count)` samples, collecting
the per-tick emission. -/
def runTicks : ControllerState → List (Int × Nat) →
    ControllerState × List (Option (List StablePeriod))
  | st, [] => (st, [])
  | st, (t, c) :: rest =>
    ((runTicks (signalTick st t c).1 rest).1,
      (signalTick st t c).2 :: (runTicks (signalTick st t c).1 rest).2)

/-! ## Justification of the squared volatility comparisons -/

/-- For a nonnegative variance `v`, a positive mean `m` and a nonnegative
threshold `c`, the comparison the source performs on
`weighted_vol = sqrt(v) / m` coincides with the squared comparison the
tick functions perform over `ℚ`. -/
theorem sqrt_vol_threshold_iff (v m c : ℝ) (hv : 0 ≤ v) (hm : 0 < m) (hc : 0 ≤ c) :
    c ≤ Real.sqrt v / m ↔ c ^ 2 * m ^ 2 ≤ v := by
  rw [le_div_iff₀ hm]
  constructor
  · intro h
    have h2 : (c * m) ^ 2 ≤ Real.sqrt v ^ 2 :=
      pow_le_pow_left₀ (mul_nonneg hc hm.le) h 2
    rw [Real.sq_sqrt hv] at h2
    nlinarith [h2]
  · intro h
    have hs := Real.sqrt_nonneg v
    have h2 : v = Real.sqrt v ^ 2 := (Real.sq_sqrt hv).symm
    nlinarith [h, h2]

/-! ## Lemmas about the regular-expression fragment -/

theorem matchEnds_litCaret (i : Nat) (s : List Char) :
    matchEnds (Rx.seq (.lit 'a') .caret) i s = [] := by
  cases s with
  | nil => rfl
  | cons c cs =>
    by_cases h : c = 'a'
    · simp [matchEnds, h]
    · simp [matchEnds, h]

theorem rxSearch_failRegex_nil (s : String) : rxSearch (failRegex []) s = false := by
  have hfe : failRegex [] = Rx.seq (.lit 'a') .caret := rfl
  rw [hfe]
  simp [rxSearch, matchEnds_litCaret]

/-! ## Lemmas about the Scoring Stage -/

theorem inferencingResults_eq_filter (m : Miner σ) (s : σ) (batch : List LogRecord) :
    inferencingResults m s batch =
      classifyAll m s (batch.filter (fun r => r.masked_log ≠ "")) := by
  induction batch generalizing s with
  | nil => rfl
  | cons r rest ih =>
    by_cases h : r.masked_log = ""
    · simp [inferencingResults, classifyAll, h, ih]
    · simp [inferencingResults, classifyAll, h, ih]

theorem classifyAll_length (m : Miner σ) (s : σ) (l : List LogRecord) :
    ((classifyAll m s l).1).length = l.length := by
  induction l generalizing s with
  | nil => rfl
  | cons r rest ih => simp [classifyAll, ih]

theorem inferencingResults_all_empty (m : Miner σ) (s : σ) (batch : List LogRecord)
    (h : ∀ r ∈ batch, r.masked_log = "") :
    inferencingResults m s batch = ([], s) := by
  induction batch generalizing s with
  | nil => rfl
  | cons r rest ih =>
    have hr : r.masked_log = "" := h r (by simp)
    simp only [inferencingResults, hr]
    simp only [ne_eq, not_true_eq_false, if_false]
    exact ih s (fun x hx => h x (List.mem_cons_of_mem _ hx))

/-! ## Lemmas about the controller rules -/

theorem ruleA_periods (w : List Nat) (st : ControllerState) :
    (ruleA w st).normal_periods = st.normal_periods := by
  unfold ruleA; split <;> rfl

theorem ruleB_periods (w : List Nat) (now : Int) (st : ControllerState) :
    (ruleB w now st).normal_periods = st.normal_periods := by
  unfold ruleB; split <;> rfl

theorem closedPeriods_append (now : Int) (st : ControllerState) :
    ∃ t, closedPeriods now st = st.normal_periods ++ t := by
  unfold closedPeriods; split
  · exact ⟨_, rfl⟩
  · exact ⟨[], by simp⟩

theorem ruleC_periods (w : List Nat) (now : Int) (st : ControllerState) :
    ∃ t, (ruleC w now st).normal_periods = st.normal_periods ++ t := by
  unfold ruleC; split
  · exact ⟨_, rfl⟩
  · exact ⟨[], by simp⟩

theorem ruleD_periods (w : List Nat) (now : Int) (count : Nat) (st : ControllerState) :
    ∃ t, ((ruleD w now count st).1).normal_periods = st.normal_periods ++ t := by
  unfold ruleD; split
  · exact closedPeriods_append now st
  · exact ⟨[], by simp⟩

theorem ruleA_last (w : List Nat) (st : ControllerState) :
    (ruleA w st).num_templates_in_last_train = st.num_templates_in_last_train := by
  unfold ruleA; split <;> rfl

theorem ruleB_last (w : List Nat) (now : Int) (st : ControllerState) :
    (ruleB w now st).num_templates_in_last_train = st.num_templates_in_last_train := by
  unfold ruleB; split <;> rfl

theorem ruleC_last (w : List Nat) (now : Int) (st : ControllerState) :
    (ruleC w now st).num_templates_in_last_train = st.num_templates_in_last_train := by
  unfold ruleC; split <;> rfl

theorem ruleA_of_not_ge (w : List Nat) (st : ControllerState)
    (h : wvolGE w (199/1000) = false) : ruleA w st = st := by
  unfold ruleA; rw [h]; rfl

theorem ruleB_fires (w : List Nat) (now : Int) (st : ControllerState)
    (hlt : wvolLT w (199/1000) = true)
    (hne : st.training_start_ts_ns ≠ st.very_first_ts_ns)
    (ht : st.train_on_next_chance = true) :
    ruleB w now st = { st with training_start_ts_ns := now } := by
  unfold ruleB; rw [if_pos ⟨hlt, hne, ht⟩]

theorem ruleC_of_tonc (w : List Nat) (now : Int) (st : ControllerState)
    (ht : st.train_on_next_chance = true) :
    ruleC w now st = st := by
  unfold ruleC
  rw [if_neg]
  rintro ⟨-, hf, -⟩
  rw [ht] at hf
  exact absurd hf (by simp)

theorem ruleD_start_cases (w : List Nat) (now : Int) (count : Nat) (st : ControllerState) :
    ((ruleD w now count st).1).training_start_ts_ns = now ∨ (ruleD w now count st).1 = st := by
  unfold ruleD; split
  · exact Or.inl rfl
  · exact Or.inr rfl

theorem ruleD_fires (w : List Nat) (now : Int) (count : Nat) (st : ControllerState)
    (hle : wvolLE w (15/100) = true)
    (hor : st.train_on_next_chance = true ∨ count > 2 * st.num_templates_in_last_train) :
    (ruleD w now count st).2 = some (closedPeriods now st) := by
  unfold ruleD; rw [if_pos ⟨hle, hor⟩]

/-! ## Claim theorems -/

/-- C1 (code_bug evaluation): a transient bulk failure (bulk-indexing
error or client timeout) never re-enqueues anything — for every batch and
every pair of bulk outcomes the set of batches actually put back onto the
persistence queue is empty, because lines 204 and 237 call `queue.put`
without awaiting the coroutine.  The second conjunct evaluates the
failing input: a bulk-indexing error on the scripted anomaly update
merely creates an unawaited put of the anomalous subset. -/
theorem transient_bulk_failure_never_requeues :
    (∀ (df : List ScoredRecord) (o1 o2 : BulkOutcome), (updateEsStep df o1 o2).requeued = []) ∧
    (updateEsStep [⟨"d1", 1, 0, 1⟩] BulkOutcome.bulkIndexError BulkOutcome.ok).unawaitedPuts =
      [[⟨"d1", 1, 0, 1⟩]] := by
  constructor
  · intro df o1 o2
    unfold updateEsStep combineEffects
    cases o1 <;> cases o2 <;>
      split_ifs <;>
      simp [anomalyBulkExcept, fullBulkExcept, noEffects]
  · rfl

/-- C9 (confirmed): on a transport-level error whose status code is not
identifiable (`status_code == "N/A"`, lines 205-209 and 238-242) the
stage reconnects the index client and neither re-enqueues nor even
attempts a put for the in-flight batch — it is dropped. -/
theorem transport_na_reconnects_and_drops (df : List ScoredRecord) :
    (updateEsStep df (.transportError true) (.transportError true)).reconnected = true ∧
    (updateEsStep df (.transportError true) (.transportError true)).requeued = [] ∧
    (updateEsStep df (.transportError true) (.transportError true)).unawaitedPuts = [] := by
  unfold updateEsStep combineEffects
  split_ifs <;> simp [anomalyBulkExcept, fullBulkExcept, noEffects]

/-- C4 (confirmed): the anomaly flag of lines 104-109 is 1 exactly when
the cluster support is strictly below 10 (the mask
`support <= 10 and support != 10` collapses to `< 10`) or the matched
template matches the compiled keyword pattern; and with an empty keyword
configuration the substituted pattern `"a^"` matches no template at all. -/
theorem anomaly_flag_characterization :
    (∀ (rx : Rx) (support : Nat) (template : String),
        drainPrediction rx support template = 1 ↔
          (support < 10 ∨ rxSearch rx template = true)) ∧
    (∀ s : String, rxSearch (failRegex []) s = false) := by
  constructor
  · intro rx support template
    have hiff : (support ≤ 10 ∧ support ≠ 10) ↔ support < 10 := by omega
    unfold drainPrediction
    split_ifs with h
    · constructor
      · intro _
        rcases h with h | h
        · exact Or.inl (hiff.mp h)
        · exact Or.inr h
      · intro _; rfl
    · constructor
      · intro h01; exact absurd h01 (by norm_num)
      · intro hc
        exfalso
        apply h
        rcases hc with hc | hc
        · exact Or.inl (hiff.mpr hc)
        · exact Or.inr hc
  · exact rxSearch_failRegex_nil

/-- C5 (confirmed): the scored batch is exactly the per-record image of
the classification of the rows with non-empty masked text — empty-text
rows produce nothing and touch nothing, every non-empty row produces
exactly one scored record, and each scored record carries the id, the
anomaly flag, the matched cluster id and the cluster support of its
source row. -/
theorem nonempty_rows_score_one_to_one (σ : Type) (m : Miner σ) (rx : Rx) (s : σ)
    (batch : List LogRecord) :
    scoredOf rx m s batch =
      ((classifyAll m s (batch.filter (fun r => r.masked_log ≠ ""))).1).map (scoreRecord rx) ∧
    (scoredOf rx m s batch).length = (batch.filter (fun r => r.masked_log ≠ "")).length ∧
    (∀ ir : InferencingResult,
        (scoreRecord rx ir)._id = ir._id ∧
        (scoreRecord rx ir).drain_prediction =
          drainPrediction rx ir.drain_matched_template_support ir.matched_template ∧
        (scoreRecord rx ir).drain_matched_template_id = ir.drain_matched_template_id ∧
        (scoreRecord rx ir).drain_matched_template_support =
          ir.drain_matched_template_support) := by
  refine ⟨?_, ?_, fun ir => ⟨rfl, rfl, rfl, rfl⟩⟩
  · unfold scoredOf
    rw [inferencingResults_eq_filter]
  · unfold scoredOf
    rw [inferencingResults_eq_filter, List.length_map, classifyAll_length]

/-- C10 (confirmed): a batch with no non-empty masked text (in particular
an empty batch) produces an empty result frame, so `df["update_type"]`
(line 85) raises a `KeyError` and no prediction message is published for
that batch. -/
theorem empty_result_raises_keyerror (σ : Type) (m : Miner σ) (rx : Rx) (s : σ)
    (batch : List LogRecord) (h : ∀ r ∈ batch, r.masked_log = "") :
    trainStep m rx s batch = Except.error "KeyError: update_type" ∧
    publishedOf (trainStep m rx s batch) = [] := by
  have he := inferencingResults_all_empty m s batch h
  have ht : trainStep m rx s batch = Except.error "KeyError: update_type" := by
    unfold trainStep
    rw [he]
    rfl
  exact ⟨ht, by rw [ht]; rfl⟩

/-- Witness for C10 at a concrete batch whose only record has empty
masked text. -/
theorem empty_result_raises_keyerror_witness :
    trainStep unitMiner (failRegex []) () [⟨"w1", ""⟩] =
      Except.error "KeyError: update_type" ∧
    publishedOf (trainStep unitMiner (failRegex []) () [⟨"w1", ""⟩]) = [] :=
  empty_result_raises_keyerror Unit unitMiner (failRegex []) () [⟨"w1", ""⟩]
    (fun r hr => by rw [List.mem_singleton.mp hr])

/-- C6 (counterexample): a processed batch results in exactly one NATS
publish on `"anomalies"` and no direct put onto the persistence queue —
contradicting the claim that the Scoring Stage enqueues the scored batch
directly onto that queue. -/
theorem scoring_does_not_put_persistence_queue :
    trainStep unitMiner (failRegex []) () [⟨"c6", "x"⟩] =
      Except.ok ([ScoringEffect.publish "anomalies" [⟨"c6", 1, 0, 1⟩]], ()) ∧
    persistPutsOf [ScoringEffect.publish "anomalies" [⟨"c6", 1, 0, 1⟩]] = [] := by
  constructor
  · rfl
  · rfl

/-- C6 (amended): the scored batch reaches the persistence queue
indirectly and exactly once — the Scoring Stage publishes it on the
`"anomalies"` subject and the Ingestion Stage's anomaly subscription
(lines 44-47) appends the delivered payload to the queue; the scoring
iteration itself performs no direct put. -/
theorem scored_batch_reaches_queue_via_anomalies_topic (σ : Type) (m : Miner σ) (rx : Rx)
    (s : σ) (batch : List LogRecord) (q : List (List ScoredRecord))
    (effs : List ScoringEffect) (s2 : σ)
    (h : trainStep m rx s batch = Except.ok (effs, s2)) :
    deliverEffects q effs = q ++ [scoredOf rx m s batch] ∧ persistPutsOf effs = [] := by
  unfold trainStep at h
  by_cases hnil : (inferencingResults m s batch).1 = []
  · rw [if_pos hnil] at h
    exact absurd h (by simp)
  · rw [if_neg hnil] at h
    injection h with h2
    have h1 : effs = [ScoringEffect.publish "anomalies" (scoredOf rx m s batch)] :=
      (congrArg Prod.fst h2).symm
    rw [h1]
    constructor
    · simp [deliverEffects, anomaliesSubscription]
    · rfl

/-- Witness for C6's amended claim at a concrete scored batch. -/
theorem scored_batch_reaches_queue_witness :
    deliverEffects [] [ScoringEffect.publish "anomalies" [⟨"c6w", 1, 0, 1⟩]] =
      [] ++ [scoredOf (failRegex []) unitMiner () [⟨"c6w", "y"⟩]] ∧
    persistPutsOf [ScoringEffect.publish "anomalies" [⟨"c6w", 1, 0, 1⟩]] = [] :=
  scored_batch_reaches_queue_via_anomalies_topic Unit unitMiner (failRegex []) ()
    [⟨"c6w", "y"⟩] [] [ScoringEffect.publish "anomalies" [⟨"c6w", 1, 0, 1⟩]] () rfl

/-- C2 (amended): `normal_periods` is append-only across every tick — in
particular it is never cleared, not even by a retrain-trigger emission. -/
theorem normal_periods_append_only (st : ControllerState) (now : Int) (count : Nat) :
    ∃ t, ((signalTick st now count).1).normal_periods = st.normal_periods ++ t := by
  unfold signalTick
  split_ifs with hg hl
  · exact ⟨[], by simp⟩
  · obtain ⟨t1, ht1⟩ := ruleC_periods (pushWindow count st.window) now
      (ruleB (pushWindow count st.window) now
        (ruleA (pushWindow count st.window)
          { st with iteration := st.iteration + 1, window := pushWindow count st.window }))
    obtain ⟨t2, ht2⟩ := ruleD_periods (pushWindow count st.window) now count
      (ruleC (pushWindow count st.window) now
        (ruleB (pushWindow count st.window) now
          (ruleA (pushWindow count st.window)
            { st with iteration := st.iteration + 1, window := pushWindow count st.window })))
    refine ⟨t1 ++ t2, ?_⟩
    rw [ht2, ht1, ruleB_periods, ruleA_periods]
    exact (List.append_assoc _ _ _)
  · exact ⟨[], by simp⟩

/-- C2 (counterexample): after the very first retrain-trigger emission the
accumulated history is not empty — the emitted interval stays in
`normal_periods`, so the history is not cleared atomically with the
emission. -/
theorem history_not_cleared_after_first_trigger :
    (runTicks (initController 10) [(11, 7), (12, 7), (13, 7), (14, 7)]).2 =
      [none, none, none, some [⟨10, 14⟩]] ∧
    ((runTicks (initController 10) [(11, 7), (12, 7), (13, 7), (14, 7)]).1).normal_periods =
      [⟨10, 14⟩] := by
  have hw1 : pushWindow 7 [] = [7] := by decide
  have hw2 : pushWindow 7 [7] = [7, 7] := by decide
  have hw3 : pushWindow 7 [7, 7] = [7, 7, 7] := by decide
  have hw4 : pushWindow 7 [7, 7, 7] = [7, 7, 7, 7] := by decide
  have hge : wvolGE [7, 7, 7, 7] (199/1000) = false := by
    norm_num [wvolGE, weightedVar, weightedAverage, dot, mean10, ratValues, mkWeights,
      List.range_succ]
  have hgt15 : wvolGT [7, 7, 7, 7] (15/100) = false := by
    norm_num [wvolGT, weightedVar, weightedAverage, dot, mean10, ratValues, mkWeights,
      List.range_succ]
  simp [runTicks, signalTick, initController, hw1, hw2, hw3, hw4, ruleA, ruleB, ruleC,
    ruleD, closedPeriods, wvolLT, wvolLE, hge, hgt15]

/-- C3 (counterexample): with the count recorded at the last retrain
equal to 20, a live count of 41 (more than twice 20) and weighted
volatility still at or above 0.199 (hence in particular not ≤ 0.15), the
tick emits no retrain trigger — the 2x escape hatch does not override the
volatility gate of line 305. -/
theorem no_trigger_while_volatile_despite_growth :
    (signalTick ⟨10, 20, true, false, -1, 0, [], [10, 1, 10]⟩ 100 41).2 = none ∧
    41 > 2 * 20 ∧
    wvolGE (pushWindow 41 [10, 1, 10]) (199/1000) = true ∧
    wvolLE (pushWindow 41 [10, 1, 10]) (15/100) = false := by
  have hp : pushWindow 41 [10, 1, 10] = [41, 10, 1, 10] := by decide
  have hge : wvolGE [41, 10, 1, 10] (199/1000) = true := by
    norm_num [wvolGE, weightedVar, weightedAverage, dot, mean10, ratValues, mkWeights,
      List.range_succ]
  have hgt15 : wvolGT [41, 10, 1, 10] (15/100) = true := by
    norm_num [wvolGT, weightedVar, weightedAverage, dot, mean10, ratValues, mkWeights,
      List.range_succ]
  refine ⟨?_, by norm_num, by rw [hp]; exact hge, by simp only [hp, wvolLE, hgt15]; rfl⟩
  unfold signalTick
  simp [hp, ruleA, ruleB, ruleC, ruleD, wvolLT, wvolLE, hge, hgt15]

/-- C3 (amended): the 2x cluster-growth escape hatch fires only at a calm
tick — whenever `weighted_vol ≤ 0.15` holds and the live count exceeds
twice the count recorded at the last retrain, the tick emits a retrain
trigger even when awaiting-retrain-opportunity is false. -/
theorem growth_escape_hatch_fires_when_calm (st : ControllerState) (now : Int) (count : Nat)
    (h1 : 3 < (pushWindow count st.window).length)
    (h2 : wvolLE (pushWindow count st.window) (15/100) = true)
    (h3 : 2 * st.num_templates_in_last_train < count) :
    ((signalTick st now count).2).isSome = true := by
  have hc0 : count ≠ 0 := by omega
  unfold signalTick
  rw [if_neg (fun hx => hc0 hx.2), if_pos h1]
  rw [ruleD_fires _ now count _ h2]
  · rfl
  · refine Or.inr ?_
    rw [ruleC_last, ruleB_last, ruleA_last]
    exact h3

/-- Witness for C3's amended claim: last retrain at count 20, live count
41, calm window, awaiting-retrain-opportunity false. -/
theorem growth_escape_hatch_witness :
    ((signalTick ⟨10, 20, false, true, 50, 0, [], [41, 41, 41]⟩ 200 41).2).isSome = true :=
  growth_escape_hatch_fires_when_calm ⟨10, 20, false, true, 50, 0, [], [41, 41, 41]⟩ 200 41
    (by decide)
    (by
      have hpw : pushWindow 41 [41, 41, 41] = [41, 41, 41, 41] := by decide
      have hgt15 : wvolGT [41, 41, 41, 41] (15/100) = false := by
        norm_num [wvolGT, weightedVar, weightedAverage, dot, mean10, ratValues, mkWeights,
          List.range_succ]
      simp only [hpw, wvolLE, hgt15]
      rfl)
    (by norm_num)

/-- C7 (confirmed): on the constant count stream 5,5,5,5 the controller
emits nothing on the first three ticks (fewer than 4 samples) and on the
4th tick emits a retrain event whose history is exactly one StablePeriod
ending at the trigger time. -/
theorem constant_stream_triggers_on_fourth_tick (t0 t1 t2 t3 t4 : Int) (h : t0 ≠ -1) :
    (runTicks (initController t0) [(t1, 5), (t2, 5), (t3, 5), (t4, 5)]).2 =
      [none, none, none, some [⟨t0, t4⟩]] := by
  have hw1 : pushWindow 5 [] = [5] := by decide
  have hw2 : pushWindow 5 [5] = [5, 5] := by decide
  have hw3 : pushWindow 5 [5, 5] = [5, 5, 5] := by decide
  have hw4 : pushWindow 5 [5, 5, 5] = [5, 5, 5, 5] := by decide
  have hge : wvolGE [5, 5, 5, 5] (199/1000) = false := by
    norm_num [wvolGE, weightedVar, weightedAverage, dot, mean10, ratValues, mkWeights,
      List.range_succ]
  have hgt15 : wvolGT [5, 5, 5, 5] (15/100) = false := by
    norm_num [wvolGT, weightedVar, weightedAverage, dot, mean10, ratValues, mkWeights,
      List.range_succ]
  simp [runTicks, signalTick, initController, hw1, hw2, hw3, hw4, ruleA, ruleB, ruleC,
    ruleD, closedPeriods, wvolLT, wvolLE, hge, hgt15, h]

/-- Witness for C7 at concrete tick times 1,2,3,4 with startup time 0. -/
theorem constant_stream_triggers_witness :
    (runTicks (initController 0) [(1, 5), (2, 5), (3, 5), (4, 5)]).2 =
      [none, none, none, some [⟨0, 4⟩]] :=
  constant_stream_triggers_on_fourth_tick 0 1 2 3 4 (by decide)

/-- C8 (counterexample): a stable period is already open (its start
timestamp is 50, not the `-1` sentinel, and `stable` is true), weighted
volatility is below 0.199 and awaiting-retrain-opportunity is true; the
tick nevertheless overwrites the open start timestamp with the current
time 200 without closing the open period and without a trigger — the
opening of line 295 is not gated on no stable period being open. -/
theorem period_reopened_while_open :
    ((signalTick ⟨5, 5, true, true, 50, 0, [], [100, 100, 50]⟩ 200 100).1).training_start_ts_ns =
      200 ∧
    (50 : Int) ≠ -1 ∧
    wvolGE (pushWindow 100 [100, 100, 50]) (199/1000) = false ∧
    ((signalTick ⟨5, 5, true, true, 50, 0, [], [100, 100, 50]⟩ 200 100).1).normal_periods = [] ∧
    (signalTick ⟨5, 5, true, true, 50, 0, [], [100, 100, 50]⟩ 200 100).2 = none := by
  have hp : pushWindow 100 [100, 100, 50] = [100, 100, 100, 50] := by decide
  have hge : wvolGE [100, 100, 100, 50] (199/1000) = false := by
    norm_num [wvolGE, weightedVar, weightedAverage, dot, mean10, ratValues, mkWeights,
      List.range_succ]
  have hgt15 : wvolGT [100, 100, 100, 50] (15/100) = true := by
    norm_num [wvolGT, weightedVar, weightedAverage, dot, mean10, ratValues, mkWeights,
      List.range_succ]
  refine ⟨?_, by decide, by rw [hp]; exact hge, ?_, ?_⟩ <;>
    · unfold signalTick
      simp [hp, ruleA, ruleB, ruleC, ruleD, wvolLT, wvolLE, hge, hgt15]

/-- Helper: under a calm reading (`weighted_vol < 0.199`), an armed
`train_on_next_chance` and a start timestamp past the startup value, the
rule chain always leaves the start timestamp at `now`. -/
theorem rules_set_start (w : List Nat) (now : Int) (count : Nat) (st' : ControllerState)
    (h2 : wvolGE w (199/1000) = false)
    (h3 : st'.train_on_next_chance = true)
    (h4 : st'.training_start_ts_ns ≠ st'.very_first_ts_ns) :
    ((ruleD w now count (ruleC w now (ruleB w now (ruleA w st')))).1).training_start_ts_ns =
      now := by
  rw [ruleA_of_not_ge _ _ h2]
  rw [ruleB_fires _ now _ (by simp only [wvolLT, h2]; rfl) h4 h3]
  rw [ruleC_of_tonc w now { st' with training_start_ts_ns := now } h3]
  rcases ruleD_start_cases w now count { st' with training_start_ts_ns := now } with
    hcase | hcase
  · exact hcase
  · rw [hcase]

/-- C8 (amended): with at least 4 samples, `weighted_vol < 0.199`,
awaiting-retrain-opportunity true and the start timestamp different from
the startup timestamp — the gate the code actually checks at line 292,
instead of "no stable period is open" — the tick sets the stable-period
start timestamp to the current time, overwriting any open period. -/
theorem period_open_gate_is_start_ne_first (st : ControllerState) (now : Int) (count : Nat)
    (h1 : 3 < (pushWindow count st.window).length)
    (h2 : wvolGE (pushWindow count st.window) (199/1000) = false)
    (h3 : st.train_on_next_chance = true)
    (h4 : st.training_start_ts_ns ≠ st.very_first_ts_ns) :
    ((signalTick st now count).1).training_start_ts_ns = now := by
  have h5 : ¬ (st.window = [] ∧ count = 0) := by
    rintro ⟨hw, hcz⟩
    rw [hw, hcz] at h1
    exact absurd h1 (by decide)
  unfold signalTick
  rw [if_neg h5, if_pos h1]
  exact rules_set_start (pushWindow count st.window) now count
    { st with iteration := st.iteration + 1, window := pushWindow count st.window } h2 h3 h4

/-- Witness for C8's amended claim: open period started at 50, startup
time 0, calm window, awaiting true — the start timestamp becomes 200. -/
theorem period_open_gate_witness :
    ((signalTick ⟨5, 5, true, true, 50, 0, [], [100, 100, 50]⟩ 201 100).1).training_start_ts_ns =
      201 :=
  period_open_gate_is_start_ne_first ⟨5, 5, true, true, 50, 0, [], [100, 100, 50]⟩ 201 100
    (by decide)
    (by
      have hp : pushWindow 100 [100, 100, 50] = [100, 100, 100, 50] := by decide
      rw [hp]
      norm_num [wvolGE, weightedVar, weightedAverage, dot, mean10, ratValues, mkWeights,
        List.range_succ])
    rfl (by decide)

end DrainService
